import Mathlib

/-!
# Verification of the RobotPy VS Code extension core (`src/extension.ts`)

A shallow embedding of the environment-probing and process-supervision
engine of the extension: interpreter discovery (`findPythonCommand`),
the environment prober (`checkEnvironment`), the process supervisor
(`execFancy`, `promptUserToKillCurrentProcess`, `killCurrentProcess`),
the pseudo-terminal bridge (`handleInput` of the pty in
`getRobotPyTerminal`), and the command dispatcher (`robotpyCommands`).

External effects (subprocess execution, file reads, user prompts) are
modelled as explicit oracle inputs; the embedded functions are pure and
mirror the TypeScript control flow statement by statement.
-/

namespace RobotPy

/-! ## String utilities

`String.includes`, suffix tests and substring containment as used by the
TypeScript source (`content.includes(...)`, regex end-anchors). -/

/-- Is `n` a prefix of `h` (on character lists)? -/
def isPrefixL : List Char → List Char → Bool
  | [], _ => true
  | _ :: _, [] => false
  | a :: as, b :: bs => a == b && isPrefixL as bs

/-- Does `h` contain `n` as a contiguous sublist? -/
def containsL (n : List Char) : List Char → Bool
  | [] => n.isEmpty
  | c :: rest => isPrefixL n (c :: rest) || containsL n rest

/-- JavaScript `hay.includes(needle)`. -/
def strContains (hay needle : String) : Bool :=
  containsL needle.data hay.data

/-- JavaScript `hay.endsWith(suffix)`; used to model the end-anchored
regular expressions of the source. -/
def strEndsWith (hay suffix : String) : Bool :=
  isPrefixL suffix.data.reverse hay.data.reverse

/-- JavaScript whitespace (the characters stripped by `trim()` and
matched by `\s` that can occur in the strings at hand). -/
def jsWhitespace (c : Char) : Bool :=
  c == ' ' || c == '\t' || c == '\n' || c == '\r' || c == '\x0b' || c == '\x0c'

/-- JavaScript `s.trim()`. -/
def jsTrim (s : String) : String :=
  ⟨((s.data.dropWhile jsWhitespace).reverse.dropWhile jsWhitespace).reverse⟩

/-- JavaScript `s.toLowerCase()` (on the ASCII strings at hand). -/
def jsToLower (s : String) : String :=
  ⟨s.data.map Char.toLower⟩

/-! ## Pseudo-Terminal Bridge (`getRobotPyTerminal`'s `handleInput`) -/

/-- The twelve strings matched at end-of-input by the defensive-filter
regex `/(Scripts|bin)[/\\]activate(\.(bat|ps1))?$/` in `handleInput`. -/
def activationSuffixes : List String :=
  [ "Scripts/activate", "Scripts/activate.bat", "Scripts/activate.ps1",
    "Scripts\\activate", "Scripts\\activate.bat", "Scripts\\activate.ps1",
    "bin/activate", "bin/activate.bat", "bin/activate.ps1",
    "bin\\activate", "bin\\activate.bat", "bin\\activate.ps1" ]

/-- Model of `data.trim().match(/(Scripts|bin)[/\\]activate(\.(bat|ps1))?$/)`:
because the regex is anchored only at the end, a match exists exactly
when the (trimmed) input ends with one of the twelve alternatives. -/
def matchesActivation (s : String) : Bool :=
  activationSuffixes.any (fun suf => strEndsWith s suf)

/-- Observable effects of the pty input handler: `writeEmitter.fire`,
a write to the running process's stdin, and killing the process. -/
inductive PtyEvent where
  | fire (s : String)
  | stdinWrite (s : String)
  | kill
deriving DecidableEq, Repr

/-- The pty `handleInput(data)` callback, as a pure function of the
input chunk and the current `inputBuffer`, returning the new buffer and
the list of emitted effects in order. `hasProcess` tells whether
`currentProcess` is set (stdin writes use optional chaining in the
source and are dropped otherwise). -/
def handleInput (hasProcess : Bool) (data : String) (inputBuffer : String) :
    String × List PtyEvent :=
  if matchesActivation (jsTrim data) then
    -- The Python extension tries to activate a venv in our pty; discard.
    ("", [])
  else if data = "\x03" then
    ("", [.fire "^C\r\n", .kill])
  else if data = "\r" || data = "\n" then
    ("", [.fire "\r\n"] ++ (if hasProcess then [.stdinWrite (inputBuffer ++ "\n")] else []))
  else if data = "\x08" || data = "\x7f" then
    if inputBuffer.length > 0 then
      (inputBuffer.dropRight 1, [.fire "\x08 \x08"])
    else
      (inputBuffer, [])
  else
    (inputBuffer ++ data, [.fire data])

/-- Feed a sequence of input chunks through `handleInput`, accumulating
the emitted effects. -/
def runInputs (hasProcess : Bool) : List String → String → String × List PtyEvent
  | [], buf => (buf, [])
  | d :: ds, buf =>
    let (buf', evs) := handleInput hasProcess d buf
    let (buf'', evs') := runInputs hasProcess ds buf'
    (buf'', evs ++ evs')

/-- The strings forwarded to the running process's stdin among a list of
pty effects. -/
def stdinWrites (evs : List PtyEvent) : List String :=
  evs.filterMap (fun e => match e with | .stdinWrite s => some s | _ => none)

/-! ## Interpreter Locator (`findPythonCommand`) -/

/-- Model of `path.join` as used by the source, with POSIX separators. -/
def pathJoin (parts : List String) : String :=
  String.intercalate "/" parts

/-- The constant `VENV_DIR = '.venv'`. -/
def VENV_DIR : String := ".venv"

/-- The constant `PYTHON_MIN_VERSION = [3, 12]`. -/
def PYTHON_MIN_VERSION : Nat × Nat := (3, 12)

/-- The source's `getVenvPath(rootPath)`. -/
def getVenvPath (rootPath : String) : String :=
  pathJoin [rootPath, VENV_DIR]

/-- Model of `parseInt(digits, 10)` on a run of decimal digits. -/
def digitsToNat (ds : List Char) : Nat :=
  ds.foldl (fun a c => a * 10 + (c.toNat - 48)) 0

/-- Try to match `/Python\s+(\d+)\.(\d+)/i` starting exactly at the head
of the character list: the literal `Python` case-insensitively, one or
more whitespace characters, a run of digits, a dot, a run of digits. -/
def matchPyVerAt (cs : List Char) : Option (Nat × Nat) :=
  let lower := cs.map Char.toLower
  if isPrefixL ['p', 'y', 't', 'h', 'o', 'n'] lower then
    let rest := cs.drop 6
    let ws := rest.takeWhile jsWhitespace
    if ws.isEmpty then none
    else
      let afterWs := rest.drop ws.length
      let d1 := afterWs.takeWhile Char.isDigit
      if d1.isEmpty then none
      else
        match afterWs.drop d1.length with
        | '.' :: tl =>
          let d2 := tl.takeWhile Char.isDigit
          if d2.isEmpty then none
          else some (digitsToNat d1, digitsToNat d2)
        | _ => none
  else none

/-- Leftmost match of the version regex in a character list. -/
def findPyVer : List Char → Option (Nat × Nat)
  | [] => none
  | c :: rest =>
    match matchPyVerAt (c :: rest) with
    | some v => some v
    | none => findPyVer rest

/-- Model of `out.match(/Python\s+(\d+)\.(\d+)/i)` followed by `parseInt` on the
two capture groups. -/
def parsePythonVersion (out : String) : Option (Nat × Nat) :=
  findPyVer out.data

/-- The `PythonCommand` interface of the source. -/
structure PythonCommand where
  /-- The command to run to invoke Python. -/
  cmd : String
  args : List String
  /-- The Python major/minor version numbers. -/
  version : Nat × Nat
  /-- The Python major.minor version as a string. -/
  versionStr : String
deriving DecidableEq, Repr

/-- The base candidate list of `findPythonCommand`. -/
def baseCandidates : List (List String) :=
  [["python.exe"], ["python3"], ["python"], ["py", "-3"], ["py"]]

/-- The candidate list after the optional `venvPath` rewriting: each
base candidate is resolved under `venvPath/bin` and `venvPath/Scripts`. -/
def candidates (venvPath : Option String) : List (List String) :=
  match venvPath with
  | none => baseCandidates
  | some vp =>
    baseCandidates.map (fun c => pathJoin [vp, "bin", c.headD ""] :: c.drop 1)
      ++ baseCandidates.map (fun c => pathJoin [vp, "Scripts", c.headD ""] :: c.drop 1)

/-- Outcome of probing one candidate with `--version` via
`execFancy(..., { silent: true })`: either a thrown error (message) or
captured `(stdout, stderr)`. -/
def ExecOracle : Type := List String → Except String (String × String)

/-- The candidate loop of `findPythonCommand`: a thrown probe is caught
and logged, an unparseable version string falls through to the next
candidate, the first parseable probe wins. -/
def findPythonCommandGo (ex : ExecOracle) : List (List String) → Option PythonCommand
  | [] => none
  | c :: rest =>
    let executable := c.headD ""
    let args := c.drop 1
    match ex c with
    | .error _ => findPythonCommandGo ex rest
    | .ok (stdout, stderr) =>
      -- python may print version to stderr: `stdout || stderr`
      let out := if stdout = "" then stderr else stdout
      match parsePythonVersion out with
      | none => findPythonCommandGo ex rest
      | some (major, minor) =>
        some { cmd := executable, args := args, version := (major, minor),
               versionStr := toString major ++ "." ++ toString minor }

/-- The source's `findPythonCommand(venvPath?)`, with subprocess execution supplied
by the oracle `ex`. -/
def findPythonCommand (ex : ExecOracle) (venvPath : Option String) : Option PythonCommand :=
  findPythonCommandGo ex (candidates venvPath)

/-! ## Environment Prober (`checkEnvironment`) -/

/-- The version gate of `checkEnvironment`:
`version[0] >= PYTHON_MIN_VERSION[0] && version[1] >= PYTHON_MIN_VERSION[1]`. -/
def isNewEnough (v : Nat × Nat) : Bool :=
  decide (PYTHON_MIN_VERSION.1 ≤ v.1) && decide (PYTHON_MIN_VERSION.2 ≤ v.2)

/-- The `EnvironmentChecks` interface of the source. -/
structure EnvironmentChecks where
  /-- Does this project have a RobotPy pyproject.toml file? -/
  hasRobotPyProjectFile : Bool
  /-- Is Python installed at all? -/
  hasSystemPython : Bool
  /-- Do we have a recent enough version of system Python? -/
  isSystemPythonNewEnough : Bool
  /-- Does the system Python have the "venv" module? -/
  hasSystemPythonVenvModule : Bool
  systemPythonCommand : Option PythonCommand
  /-- Have we created the venv? -/
  hasVenvFolder : Bool
  /-- Does the venv contain a recent enough version of Python? -/
  isVenvPythonNewEnough : Bool
  /-- Does the venv contain a working version of RobotPy? -/
  isVenvReady : Bool
  venvPythonCommand : Option PythonCommand
  /-- On Windows, does Powershell allow us to execute scripts? -/
  winExecutionPolicyOk : Bool
deriving DecidableEq, Repr

/-- Outcomes of every external operation probed by `checkEnvironment`. -/
structure EnvOracle where
  /-- Value of `os.platform() === 'win32'`. -/
  isWin : Bool
  /-- Result of reading `<root>/pyproject.toml` (content or thrown error). -/
  pyprojectRead : Except String String
  /-- Subprocess outcomes for the system-wide `findPythonCommand()`. -/
  sysExec : ExecOracle
  /-- Result of `python -c "import venv"` on the system interpreter. -/
  venvModuleImport : Except String Unit
  /-- Value of `fs.existsSync(getVenvPath(rootPath))`. -/
  venvExists : Bool
  /-- Subprocess outcomes for `findPythonCommand(getVenvPath(rootPath))`. -/
  venvExec : ExecOracle
  /-- Result of `python -c "import robotpy"` on the venv interpreter. -/
  robotpyImport : Except String Unit
  /-- Result of the PowerShell `Get-ExecutionPolicy` query. -/
  policyQuery : Except String (String × String)

/-- The initial `result` literal of `checkEnvironment`: everything
false/absent, `winExecutionPolicyOk` true exactly off Windows. -/
def initialChecks (o : EnvOracle) : EnvironmentChecks :=
  { hasRobotPyProjectFile := false,
    hasSystemPython := false, isSystemPythonNewEnough := false,
    hasSystemPythonVenvModule := false, systemPythonCommand := none,
    hasVenvFolder := false, isVenvPythonNewEnough := false,
    isVenvReady := false, venvPythonCommand := none,
    winExecutionPolicyOk := !o.isWin }

/-- Stage "Check if there is a RobotPy project": read `pyproject.toml`, set
the flag when it contains `[tool.robotpy]`; a read failure is expected. -/
def projectStage (o : EnvOracle) (r : EnvironmentChecks) : EnvironmentChecks :=
  match o.pyprojectRead with
  | .ok content =>
    if strContains content "[tool.robotpy]" then { r with hasRobotPyProjectFile := true } else r
  | .error _ => r

/-- Stage "Check status of system Python": locate it, gate on the minimum
version, then probe `import venv`. -/
def systemStage (o : EnvOracle) (r : EnvironmentChecks) : EnvironmentChecks :=
  match findPythonCommand o.sysExec none with
  | none => r
  | some sp =>
    let a := { r with hasSystemPython := true, systemPythonCommand := some sp }
    if isNewEnough sp.version then
      let b := { a with isSystemPythonNewEnough := true }
      match o.venvModuleImport with
      | .ok _ => { b with hasSystemPythonVenvModule := true }
      | .error _ => b
    else a

/-- Stage "Check status of venv": on folder presence, locate its interpreter,
gate on the minimum version, then probe `import robotpy`. -/
def venvStage (o : EnvOracle) (rootPath : String) (r : EnvironmentChecks) : EnvironmentChecks :=
  if o.venvExists then
    let a := { r with hasVenvFolder := true }
    match findPythonCommand o.venvExec (some (getVenvPath rootPath)) with
    | none => a
    | some vp =>
      let b := { a with venvPythonCommand := some vp }
      if isNewEnough vp.version then
        let c := { b with isVenvPythonNewEnough := true }
        match o.robotpyImport with
        | .ok _ => { c with isVenvReady := true }
        | .error _ => c
      else b
  else r

/-- Stage "Check PowerShell execution policy" (Windows only): an allow-listed
policy sets the flag; a failed query is the one probing error. -/
def policyStage (o : EnvOracle) (r : EnvironmentChecks) : EnvironmentChecks × Bool :=
  if o.isWin then
    match o.policyQuery with
    | .ok (stdout, stderr) =>
      let policy := jsToLower (jsTrim (if stdout = "" then stderr else stdout))
      if ["remotesigned", "bypass", "unrestricted"].contains policy then
        ({ r with winExecutionPolicyOk := true }, false)
      else (r, false)
    | .error _ => (r, true)
  else (r, false)

/-- The source's `checkEnvironment(rootPath)`: returns the report and the `didError`
flag, running the source's four sections in order. -/
def checkEnvironment (o : EnvOracle) (rootPath : String) : EnvironmentChecks × Bool :=
  policyStage o (venvStage o rootPath (systemStage o (projectStage o (initialChecks o))))

/-! ## Process Supervisor (`execFancy` and friends) -/

/-- The `currentProcess` record: the live subprocess handle is modelled
by a numeric id. -/
structure RunningProcess where
  procId : Nat
  cmdString : String
  prettyName : String
deriving DecidableEq, Repr

/-- The source's `promptUserToKillCurrentProcess()`: with no process running it warns
and assumes "yes"; otherwise it returns the user's answer. -/
def promptUserToKillCurrentProcess (cur : Option RunningProcess) (userSaysYes : Bool) : Bool :=
  match cur with
  | none => true
  | some _ => userSaysYes

/-- The source's `killCurrentProcess()`: kills the process (recorded as a kill event
on its id) and clears the slot. -/
def killCurrentProcess (cur : Option RunningProcess) : Option RunningProcess × List Nat :=
  match cur with
  | none => (none, [])
  | some p => (none, [p.procId])

/-- The rejection message built by `execFancy` when another process is
running. -/
def busyMsg (p : RunningProcess) (cmdString : String) : String :=
  "Could not run command because another process (" ++ p.prettyName ++
    ") was running: " ++ cmdString

/-- Outcome of `execFancy`'s conflict gate. -/
inductive GateOutcome where
  | proceed
  | rejected (msg : String)
deriving DecidableEq, Repr

/-- Result of the conflict gate: the outcome, the `currentProcess` slot
afterwards, the ids of processes killed, and whether the user was
prompted. -/
structure GateResult where
  outcome : GateOutcome
  cur : Option RunningProcess
  kills : List Nat
  prompted : Bool
deriving DecidableEq, Repr

/-- The "possibly kill the current process" gate at the start of
`execFancy`: with a process running, a silent request throws at once;
otherwise the user is prompted, declining throws and accepting kills the
running process and proceeds. -/
def execFancyGate (cur : Option RunningProcess) (silent : Bool) (userSaysYes : Bool)
    (cmdString : String) : GateResult :=
  match cur with
  | none => { outcome := .proceed, cur := none, kills := [], prompted := false }
  | some p =>
    if silent then
      { outcome := .rejected (busyMsg p cmdString), cur := some p, kills := [], prompted := false }
    else if promptUserToKillCurrentProcess (some p) userSaysYes then
      let (cur', kills) := killCurrentProcess (some p)
      { outcome := .proceed, cur := cur', kills := kills, prompted := true }
    else
      { outcome := .rejected (busyMsg p cmdString), cur := some p, kills := [], prompted := true }

/-- How the spawned process finishes: the `close` event carries the exit
code (`null` if killed by a signal) and the signal name; the `error`
event carries a spawn-level error. -/
inductive Completion where
  | close (code : Option Int) (signal : String)
  | spawnErr (err : String)
deriving DecidableEq, Repr

/-- The message built in the `close` handler of `execFancy`. -/
def closeMsg (code : Option Int) (signal : String) : String :=
  match code with
  | none => "Process was killed with signal " ++ signal
  | some c => "Process exited with code " ++ toString c

/-- Result of one full `execFancy` run: settled promise, final
`currentProcess` slot, killed ids and spawned ids. -/
structure RunResult where
  outcome : Except String (String × String)
  cur : Option RunningProcess
  kills : List Nat
  spawns : List Nat
  prompted : Bool
deriving Repr

/-- One full `execFancy(cmd, args, opts)` call: the conflict gate, then
(if it proceeds) the spawn of `np` (filling `currentProcess`), then the
completion `comp`, with `so`/`se` the accumulated stdout/stderr text.
Both completion handlers clear `currentProcess` before settling; the
`close` handler rejects unless the exit code is `0` (a `null` code from
a signal also rejects, since `null != 0` in JavaScript). -/
def execFancyRun (cur : Option RunningProcess) (silent userSaysYes : Bool)
    (np : RunningProcess) (comp : Completion) (so se : String) : RunResult :=
  let g := execFancyGate cur silent userSaysYes np.cmdString
  match g.outcome with
  | .rejected m =>
    { outcome := .error m, cur := g.cur, kills := g.kills, spawns := [], prompted := g.prompted }
  | .proceed =>
    -- `spawn(...)`; `currentProcess = { proc, cmdString, prettyName }`
    match comp with
    | .close code signal =>
      let msg := closeMsg code signal
      -- `currentProcess = undefined` precedes the settle
      if code = some 0 then
        { outcome := .ok (so, se), cur := none, kills := g.kills,
          spawns := [np.procId], prompted := g.prompted }
      else
        { outcome := .error (msg ++ ": " ++ np.prettyName), cur := none, kills := g.kills,
          spawns := [np.procId], prompted := g.prompted }
    | .spawnErr err =>
      { outcome := .error err, cur := none, kills := g.kills,
        spawns := [np.procId], prompted := g.prompted }

/-! ## Command Dispatcher (`robotpyCommands`) -/

/-- How a `robotpyCommands(...cmds)` invocation ends, after the
initialization barrier. -/
inductive DispatchOutcome where
  /-- A process was running and the user declined to kill it: `return true`. -/
  | abortedProcKept
  /-- Case `saveCurrentFile()` returned false: warning shown, then `return`. -/
  | warnedAndAborted
  /-- Case `ensureRobotPyReady()` returned false: `return`. -/
  | abortedEnvNotReady
  /-- The subcommands are executed in order. -/
  | ranCommands
deriving DecidableEq, Repr

/-- The control flow of `robotpyCommands` after `await extensionInitialized`:
kill-or-keep gate, then save, then environment reconciliation, then the
subcommand loop. `procRunning` is whether `currentProcess` is set,
`userKills` the answer to the kill prompt, `saveOk` the result of
`saveCurrentFile()` (false also when there is no active editor), and
`envReady` the result of `ensureRobotPyReady()`. -/
def robotpyCommandsFlow (procRunning userKills saveOk envReady : Bool) : DispatchOutcome :=
  if procRunning && !userKills then .abortedProcKept
  else if !saveOk then .warnedAndAborted
  else if !envReady then .abortedEnvNotReady
  else .ranCommands

/-! ## Helper lemmas on substring containment -/

theorem isPrefixL_append (xs ys : List Char) : isPrefixL xs (xs ++ ys) = true := by
  induction xs with
  | nil => rfl
  | cons a as ih => simp [isPrefixL, ih]

theorem containsL_of_isPrefixL {n h : List Char} (hp : isPrefixL n h = true) :
    containsL n h = true := by
  cases h with
  | nil =>
    cases n with
    | nil => rfl
    | cons a as => simp [isPrefixL] at hp
  | cons c rest => simp [containsL, hp]

theorem containsL_cons {n : List Char} (c : Char) {h : List Char}
    (hc : containsL n h = true) : containsL n (c :: h) = true := by
  simp [containsL, hc]

theorem containsL_middle (pre n suf : List Char) : containsL n (pre ++ (n ++ suf)) = true := by
  induction pre with
  | nil => exact containsL_of_isPrefixL (isPrefixL_append n suf)
  | cons c cs ih => exact containsL_cons c ih

theorem strContains_of_data (hay needle : String) (pre suf : List Char)
    (h : hay.data = pre ++ (needle.data ++ suf)) : strContains hay needle = true := by
  unfold strContains
  rw [h]
  exact containsL_middle pre needle.data suf

/-! ## Claim theorems -/

/-- C6 counterexample: the claim says a discovered interpreter of major
version 4 passes the version-adequacy check regardless of minor — but
`checkEnvironment`'s gate requires both components to meet the minimum,
so a system Python reporting `Python 4.0.1` is found
(`hasSystemPython = true`) yet fails the gate
(`isSystemPythonNewEnough = false`); `isNewEnough (4, 0) = false`. -/
def pyOracle40 : EnvOracle :=
  { isWin := false,
    pyprojectRead := .error "ENOENT",
    sysExec := fun _ => .ok ("Python 4.0.1", ""),
    venvModuleImport := .ok (),
    venvExists := false,
    venvExec := fun _ => .error "ENOENT",
    robotpyImport := .error "no module named robotpy",
    policyQuery := .error "not windows" }

/-- C6 counterexample: version 4.0 does not pass the version-adequacy
check of `checkEnvironment`: the interpreter is discovered but gated out. -/
theorem version40_fails_check :
    isNewEnough (4, 0) = false
    ∧ (checkEnvironment pyOracle40 "/proj").1.hasSystemPython = true
    ∧ (checkEnvironment pyOracle40 "/proj").1.isSystemPythonNewEnough = false := by
  refine ⟨by decide, ?_, ?_⟩ <;> rfl

/-- C6 (amended): the version gate of `checkEnvironment` compares both
components against the minimum `(3, 12)`, so a discovered interpreter
with major version 4 passes the check iff its minor component is at
least 12 (4.0 fails, 4.12 passes). -/
theorem isNewEnough_major4 (minor : Nat) : isNewEnough (4, minor) = true ↔ 12 ≤ minor := by
  simp [isNewEnough, PYTHON_MIN_VERSION]

/-- C6 witness: 4.12 passes the gate and 4.0 does not. -/
theorem isNewEnough_major4_witness :
    isNewEnough (4, 12) = true ∧ isNewEnough (4, 0) = false := by
  constructor
  · exact (isNewEnough_major4 12).mpr (by decide)
  · have h := isNewEnough_major4 0
    simp only [show ¬(12 ≤ 0) by decide, iff_false] at h
    simpa using h

/-- C5: in `robotpyCommands`, a failed `saveCurrentFile()` (including
the no-active-editor case) shows the warning and then returns — the
command does NOT proceed to environment reconciliation or subcommand
execution, contradicting the spec's "non-fatal warning, command
proceeds" (and the warning's own text "Results may not be what you
expect"). -/
theorem robotpyCommands_saveFail_aborts :
    robotpyCommandsFlow false false false true = .warnedAndAborted
    ∧ robotpyCommandsFlow false false false true ≠ .ranCommands := by
  decide

/-- C7: with a running process and an empty buffer, the inputs `"abc"`,
a backspace byte (`0x08` or `0x7f`), then `"\r"` forward exactly
`"ab\n"` to the process's stdin and leave the buffer empty; a backspace
on an empty buffer is a no-op (no character removed, no erase sequence
emitted). -/
theorem pty_backspace_line_editing :
    ((runInputs true ["abc", "\x08", "\r"] "").1 = ""
      ∧ stdinWrites (runInputs true ["abc", "\x08", "\r"] "").2 = ["ab\n"])
    ∧ ((runInputs true ["abc", "\x7f", "\r"] "").1 = ""
      ∧ stdinWrites (runInputs true ["abc", "\x7f", "\r"] "").2 = ["ab\n"])
    ∧ handleInput true "\x08" "" = ("", [])
    ∧ handleInput true "\x7f" "" = ("", []) := by
  decide

/-- C8: any input whose trimmed text ends in `Scripts/activate`,
`Scripts/activate.bat`, `Scripts/activate.ps1` or `bin/activate` is
silently discarded by `handleInput`: no stdin forward, no echo, no
normal-line treatment (the effect list is empty). -/
theorem activation_input_discarded (hp : Bool) (data buf : String)
    (h : strEndsWith (jsTrim data) "Scripts/activate" = true
      ∨ strEndsWith (jsTrim data) "Scripts/activate.bat" = true
      ∨ strEndsWith (jsTrim data) "Scripts/activate.ps1" = true
      ∨ strEndsWith (jsTrim data) "bin/activate" = true) :
    handleInput hp data buf = ("", []) := by
  have hm : matchesActivation (jsTrim data) = true := by
    simp only [matchesActivation, activationSuffixes, List.any_cons, List.any_nil,
      Bool.or_eq_true]
    rcases h with h | h | h | h <;> simp [h]
  simp [handleInput, hm]

/-- C8 witness: the POSIX activation line (with a trailing newline that
the filter trims away) is discarded. -/
theorem activation_input_discarded_witness :
    (strEndsWith (jsTrim "/r/.venv/bin/activate\n") "Scripts/activate" = true
      ∨ strEndsWith (jsTrim "/r/.venv/bin/activate\n") "Scripts/activate.bat" = true
      ∨ strEndsWith (jsTrim "/r/.venv/bin/activate\n") "Scripts/activate.ps1" = true
      ∨ strEndsWith (jsTrim "/r/.venv/bin/activate\n") "bin/activate" = true)
    ∧ handleInput true "/r/.venv/bin/activate\n" "xyz" = ("", []) :=
  ⟨by decide, activation_input_discarded true "/r/.venv/bin/activate\n" "xyz" (by decide)⟩

/-- C10: when the defensive filter matches, the entire pending input
line buffer is reset to empty — characters typed but not yet submitted
are discarded along with the matching input. -/
theorem activation_clears_pending_buffer (hp : Bool) (data buf : String)
    (h : matchesActivation (jsTrim data) = true) :
    (handleInput hp data buf).1 = "" := by
  simp [handleInput, h]

/-- C10 witness: a half-typed buffer is wiped by a matching injected
input. -/
theorem activation_clears_pending_buffer_witness :
    matchesActivation (jsTrim "/x/.venv/Scripts/activate.ps1") = true
    ∧ (handleInput false "/x/.venv/Scripts/activate.ps1" "half-typed").1 = "" :=
  ⟨by decide, activation_clears_pending_buffer false "/x/.venv/Scripts/activate.ps1" "half-typed" (by decide)⟩

theorem findPythonCommandGo_none (ex : ExecOracle) (l : List (List String))
    (h : ∀ c ∈ l, ∃ e, ex c = .error e) : findPythonCommandGo ex l = none := by
  induction l with
  | nil => rfl
  | cons c rest ih =>
    obtain ⟨e, he⟩ := h c (by simp)
    simp only [findPythonCommandGo, he]
    exact ih (fun c' hc' => h c' (by simp [hc']))

/-- C9: when every candidate probe fails (each subprocess invocation
throws, e.g. because no matching executable exists under the search
root), `findPythonCommand` catches every failure and returns the
"not found" value rather than propagating an exception. -/
theorem findPythonCommand_exhausted (ex : ExecOracle) (venvPath : Option String)
    (h : ∀ c ∈ candidates venvPath, ∃ e, ex c = .error e) :
    findPythonCommand ex venvPath = none :=
  findPythonCommandGo_none ex (candidates venvPath) h

/-- C9 witness: a search root where every probe throws `ENOENT` yields
"not found". -/
theorem findPythonCommand_exhausted_witness :
    (∀ c ∈ candidates (some "/fake/root"),
      ∃ e, (fun _ => (Except.error "ENOENT" : Except String (String × String))) c = .error e)
    ∧ findPythonCommand (fun _ => .error "ENOENT") (some "/fake/root") = none :=
  ⟨fun _ _ => ⟨"ENOENT", rfl⟩,
   findPythonCommand_exhausted (fun _ => .error "ENOENT") (some "/fake/root")
     (fun _ _ => ⟨"ENOENT", rfl⟩)⟩

/-- C2: while a process `p` is active, a silent second run is rejected
at once with the busy message, without prompting, killing or spawning
anything and with the slot still holding `p`; a non-silent second run
whose prompt the user declines is likewise rejected with `p`
undisturbed; only when the user accepts is `p` killed and the new
process spawned. -/
theorem execFancy_second_run_gate (p np : RunningProcess) (ua : Bool)
    (comp : Completion) (so se : String) :
    (execFancyRun (some p) true ua np comp so se =
      { outcome := .error (busyMsg p np.cmdString), cur := some p,
        kills := [], spawns := [], prompted := false })
    ∧ (execFancyRun (some p) false false np comp so se =
      { outcome := .error (busyMsg p np.cmdString), cur := some p,
        kills := [], spawns := [], prompted := true })
    ∧ ((execFancyRun (some p) false true np comp so se).kills = [p.procId]
      ∧ (execFancyRun (some p) false true np comp so se).spawns = [np.procId]) := by
  refine ⟨rfl, rfl, ?_, ?_⟩ <;>
    (cases comp with
     | close code signal =>
       by_cases hc : code = some 0 <;>
         simp [execFancyRun, execFancyGate, promptUserToKillCurrentProcess,
           killCurrentProcess, hc]
     | spawnErr err => rfl)

/-- C2 witness: a concrete busy slot, a silent rejection, a declined
rejection and an accepted kill-and-spawn. -/
theorem execFancy_second_run_gate_witness :
    (execFancyRun (some ⟨1, "old", "old"⟩) true false ⟨2, "new", "new"⟩
        (.close (some 0) "") "" "" =
      { outcome := .error (busyMsg ⟨1, "old", "old"⟩ "new"), cur := some ⟨1, "old", "old"⟩,
        kills := [], spawns := [], prompted := false })
    ∧ (execFancyRun (some ⟨1, "old", "old"⟩) false true ⟨2, "new", "new"⟩
        (.close (some 0) "") "" "").kills = [1] := by
  have h := execFancy_second_run_gate ⟨1, "old", "old"⟩ ⟨2, "new", "new"⟩ false
    (.close (some 0) "") "" ""
  exact ⟨h.1, h.2.2.1⟩

/-- C3: for a run that the gate lets through, exit code 0 resolves with
the captured output; exit code `n ≠ 0` rejects with the message
`Process exited with code n: <prettyName>`, which contains
`exited with code n` (for `n = 2`, it contains `2`); a `null` exit code
(killed by signal `sig`) rejects with a message containing `sig`; a
spawn-level error rejects with the underlying error unchanged. -/
theorem execFancy_completion_spec (np : RunningProcess) (sig so se e : String) :
    ((execFancyRun none false true np (.close (some 0) sig) so se).outcome = .ok (so, se))
    ∧ (∀ n : Int, n ≠ 0 →
        (execFancyRun none false true np (.close (some n) sig) so se).outcome
          = .error (closeMsg (some n) sig ++ ": " ++ np.prettyName)
        ∧ strContains (closeMsg (some n) sig ++ ": " ++ np.prettyName)
            ("exited with code " ++ toString n) = true)
    ∧ strContains (closeMsg (some 2) sig ++ ": " ++ np.prettyName) "2" = true
    ∧ ((execFancyRun none false true np (.close none sig) so se).outcome
          = .error (closeMsg none sig ++ ": " ++ np.prettyName)
        ∧ strContains (closeMsg none sig ++ ": " ++ np.prettyName) sig = true)
    ∧ (execFancyRun none false true np (.spawnErr e) so se).outcome = .error e := by
  refine ⟨rfl, fun n hn => ⟨?_, ?_⟩, ?_, ⟨rfl, ?_⟩, rfl⟩
  · simp [execFancyRun, execFancyGate, hn]
  · apply strContains_of_data _ _ ("Process ").data (": ".data ++ np.prettyName.data)
    have hsplit : ("Process exited with code ").data
        = ("Process ").data ++ ("exited with code ").data := rfl
    simp [closeMsg, String.data_append, hsplit, List.append_assoc]
  · apply strContains_of_data _ _ ("Process exited with code ").data
      (": ".data ++ np.prettyName.data)
    have h2 : (toString (2 : Int)) = "2" := rfl
    simp [closeMsg, String.data_append, h2, List.append_assoc]
  · apply strContains_of_data _ _ ("Process was killed with signal ").data
      (": ".data ++ np.prettyName.data)
    simp [closeMsg, String.data_append, List.append_assoc]

/-- C3 witness: a run exiting with code 2 rejects with a message
containing `2`, and a signal kill rejects with a message containing the
signal name. -/
theorem execFancy_completion_spec_witness :
    ((2 : Int) ≠ 0
      ∧ (execFancyRun none false true ⟨1, "c", "c"⟩ (.close (some 2) "SIGTERM") "o" "r").outcome
          = .error (closeMsg (some 2) "SIGTERM" ++ ": " ++ "c"))
    ∧ strContains (closeMsg (some 2) "SIGTERM" ++ ": " ++ "c") "2" = true
    ∧ strContains (closeMsg none "SIGTERM" ++ ": " ++ "c") "SIGTERM" = true := by
  have h := execFancy_completion_spec ⟨1, "c", "c"⟩ "SIGTERM" "o" "r" "e"
  exact ⟨⟨by decide, (h.2.1 2 (by decide)).1⟩, h.2.2.1, h.2.2.2.1.2⟩

/-- C4: whenever the gate lets a run proceed, the `currentProcess` slot
is `undefined` again after every completion — normal exit, non-zero
exit, signal kill, or spawn error — before the promise settles. -/
theorem currentProcess_cleared (cur : Option RunningProcess) (silent ua : Bool)
    (np : RunningProcess) (comp : Completion) (so se : String)
    (h : (execFancyGate cur silent ua np.cmdString).outcome = .proceed) :
    (execFancyRun cur silent ua np comp so se).cur = none := by
  simp only [execFancyRun]
  rw [h]
  cases comp with
  | close code signal =>
    by_cases hc : code = some 0 <;> simp [hc]
  | spawnErr err => rfl

/-- C4 witness: a run from an idle slot that exits with code 0 leaves
the slot cleared. -/
theorem currentProcess_cleared_witness :
    (execFancyGate none false true "cmd").outcome = .proceed
    ∧ (execFancyRun none false true ⟨1, "cmd", "cmd"⟩ (.close (some 0) "") "" "").cur = none :=
  ⟨rfl, currentProcess_cleared none false true ⟨1, "cmd", "cmd"⟩ (.close (some 0) "") "" "" rfl⟩

/-- C1: every report produced by `checkEnvironment` — for any workspace
root and any outcome of the probed file/subprocess operations —
satisfies the cross-field invariants: venv version-adequacy implies
folder presence; venv readiness implies folder presence and venv
version-adequacy; system venv-module presence implies system-interpreter
presence and version-adequacy; system version-adequacy implies
system-interpreter presence. (These are exactly the `assert.ok` checks
at the end of the source function, which therefore never fire.) -/
theorem projectStage_initial_false (o : EnvOracle) :
    (projectStage o (initialChecks o)).hasSystemPython = false
    ∧ (projectStage o (initialChecks o)).isSystemPythonNewEnough = false
    ∧ (projectStage o (initialChecks o)).hasSystemPythonVenvModule = false
    ∧ (projectStage o (initialChecks o)).hasVenvFolder = false
    ∧ (projectStage o (initialChecks o)).isVenvPythonNewEnough = false
    ∧ (projectStage o (initialChecks o)).isVenvReady = false := by
  simp only [projectStage, initialChecks]
  repeat' split
  all_goals (first | rfl | simp)

theorem systemStage_sys_invariants (o : EnvOracle) (r : EnvironmentChecks)
    (h2 : r.isSystemPythonNewEnough = false) (h3 : r.hasSystemPythonVenvModule = false) :
    ((systemStage o r).isSystemPythonNewEnough = true → (systemStage o r).hasSystemPython = true)
    ∧ ((systemStage o r).hasSystemPythonVenvModule = true →
        (systemStage o r).hasSystemPython = true
        ∧ (systemStage o r).isSystemPythonNewEnough = true) := by
  simp only [systemStage]
  repeat' split
  all_goals (first | rfl | simp_all)

theorem systemStage_venv_fields (o : EnvOracle) (r : EnvironmentChecks) :
    (systemStage o r).hasVenvFolder = r.hasVenvFolder
    ∧ (systemStage o r).isVenvPythonNewEnough = r.isVenvPythonNewEnough
    ∧ (systemStage o r).isVenvReady = r.isVenvReady := by
  simp only [systemStage]
  repeat' split
  all_goals (first | rfl | simp)

theorem venvStage_venv_invariants (o : EnvOracle) (rootPath : String) (r : EnvironmentChecks)
    (h1 : r.isVenvPythonNewEnough = false) (h2 : r.isVenvReady = false) :
    ((venvStage o rootPath r).isVenvPythonNewEnough = true →
        (venvStage o rootPath r).hasVenvFolder = true)
    ∧ ((venvStage o rootPath r).isVenvReady = true →
        (venvStage o rootPath r).hasVenvFolder = true
        ∧ (venvStage o rootPath r).isVenvPythonNewEnough = true) := by
  simp only [venvStage]
  repeat' split
  all_goals (first | rfl | simp_all)

theorem venvStage_sys_fields (o : EnvOracle) (rootPath : String) (r : EnvironmentChecks) :
    (venvStage o rootPath r).hasSystemPython = r.hasSystemPython
    ∧ (venvStage o rootPath r).isSystemPythonNewEnough = r.isSystemPythonNewEnough
    ∧ (venvStage o rootPath r).hasSystemPythonVenvModule = r.hasSystemPythonVenvModule := by
  simp only [venvStage]
  repeat' split
  all_goals (first | rfl | simp)

theorem policyStage_fields (o : EnvOracle) (r : EnvironmentChecks) :
    (policyStage o r).1.hasSystemPython = r.hasSystemPython
    ∧ (policyStage o r).1.isSystemPythonNewEnough = r.isSystemPythonNewEnough
    ∧ (policyStage o r).1.hasSystemPythonVenvModule = r.hasSystemPythonVenvModule
    ∧ (policyStage o r).1.hasVenvFolder = r.hasVenvFolder
    ∧ (policyStage o r).1.isVenvPythonNewEnough = r.isVenvPythonNewEnough
    ∧ (policyStage o r).1.isVenvReady = r.isVenvReady := by
  simp only [policyStage]
  repeat' split
  all_goals (first | rfl | simp)

theorem checkEnvironment_invariants (o : EnvOracle) (rootPath : String)
    (r : EnvironmentChecks) (hr : r = (checkEnvironment o rootPath).1) :
    (r.isVenvPythonNewEnough = true → r.hasVenvFolder = true)
    ∧ (r.isVenvReady = true → r.hasVenvFolder = true ∧ r.isVenvPythonNewEnough = true)
    ∧ (r.hasSystemPythonVenvModule = true →
        r.hasSystemPython = true ∧ r.isSystemPythonNewEnough = true)
    ∧ (r.isSystemPythonNewEnough = true → r.hasSystemPython = true) := by
  subst hr
  obtain ⟨f1, f2, f3, f4, f5, f6⟩ := projectStage_initial_false o
  obtain ⟨sys1, sys2⟩ := systemStage_sys_invariants o (projectStage o (initialChecks o)) f2 f3
  obtain ⟨w1, w2, w3⟩ := systemStage_venv_fields o (projectStage o (initialChecks o))
  obtain ⟨venv1, venv2⟩ := venvStage_venv_invariants o rootPath
    (systemStage o (projectStage o (initialChecks o))) (w2.trans f5) (w3.trans f6)
  obtain ⟨s1, s2, s3⟩ := venvStage_sys_fields o rootPath
    (systemStage o (projectStage o (initialChecks o)))
  obtain ⟨p1, p2, p3, p4, p5, p6⟩ := policyStage_fields o
    (venvStage o rootPath (systemStage o (projectStage o (initialChecks o))))
  simp only [checkEnvironment] at *
  refine ⟨?_, ?_, ?_, ?_⟩
  · intro h
    rw [p5] at h
    rw [p4]
    exact venv1 h
  · intro h
    rw [p6] at h
    rw [p4, p5]
    exact venv2 h
  · intro h
    rw [p3, s3] at h
    rw [p1, s1, p2, s2]
    exact sys2 h
  · intro h
    rw [p2, s2] at h
    rw [p1, s1]
    exact sys1 h

/-- A probe whose external operations all fail, for instantiating the
invariant theorem. -/
def failingOracle : EnvOracle :=
  { isWin := false,
    pyprojectRead := .error "ENOENT",
    sysExec := fun _ => .error "ENOENT",
    venvModuleImport := .error "ENOENT",
    venvExists := false,
    venvExec := fun _ => .error "ENOENT",
    robotpyImport := .error "ENOENT",
    policyQuery := .error "ENOENT" }

/-- C1 witness: the invariants at a concrete probe outcome. -/
theorem checkEnvironment_invariants_witness :
    ((checkEnvironment failingOracle "/proj").1.isVenvPythonNewEnough = true →
        (checkEnvironment failingOracle "/proj").1.hasVenvFolder = true)
    ∧ ((checkEnvironment failingOracle "/proj").1.isVenvReady = true →
        (checkEnvironment failingOracle "/proj").1.hasVenvFolder = true
        ∧ (checkEnvironment failingOracle "/proj").1.isVenvPythonNewEnough = true)
    ∧ ((checkEnvironment failingOracle "/proj").1.hasSystemPythonVenvModule = true →
        (checkEnvironment failingOracle "/proj").1.hasSystemPython = true
        ∧ (checkEnvironment failingOracle "/proj").1.isSystemPythonNewEnough = true)
    ∧ ((checkEnvironment failingOracle "/proj").1.isSystemPythonNewEnough = true →
        (checkEnvironment failingOracle "/proj").1.hasSystemPython = true) :=
  checkEnvironment_invariants failingOracle "/proj" _ rfl

end RobotPy
